import Mathlib

/-!
Verification of the point-source rupture core of oq-hazardlib.

Shallow embedding of:
* `openquake/hazardlib/pmf.py` (class `PMF`), with probabilities as exact
  rationals;
* `nhe/source/point.py` (class `PointSource`), with real-number arithmetic;
* the geodetic `azimuth` primitive (modelled from the spec, since the
  geodetic module itself is not part of the sources, only its tests are).

Python floats are modelled as exact numbers (ℚ for the PMF checks, ℝ for the
geometry); exceptions are modelled with `Except`; the horizontal part of the
forward geodetic projection `point_at`, whose closed formula the sources do
not contain, is kept abstract as a function parameter `hproj`.
-/

namespace Hazardlib

/-! ## `openquake.hazardlib.pmf.PMF` -/

/-- The `PMF` class: it stores only its validated `data` list of
(probability, value) pairs (with `__slots__` holding only `data`). -/
structure PMF (α : Type) where
  data : List (ℚ × α)
deriving DecidableEq

/-- `PMF.__init__(data, epsilon)` from `openquake/hazardlib/pmf.py`:
`probs, values = zip(*data)` (which fails on an empty `data` before any
validation), then raises `ValueError` when some probability is negative or
when the probability sum differs from 1 by more than `epsilon`; otherwise it
stores the (probability, value) pairs in order. -/
def PMF.init {α : Type} (data : List (ℚ × α)) (epsilon : ℚ) :
    Except String (PMF α) :=
  match data with
  | [] => .error "need more than 0 values to unpack"
  | _ :: _ =>
    if (data.map Prod.fst).any (fun prob => prob < 0) then
      .error "a probability is not positive"
    else if |(data.map Prod.fst).sum - 1| > epsilon then
      .error "probabilities do not sum up to 1.0"
    else
      .ok ⟨data⟩

/-- The default tolerance of `PMF.__init__` (`epsilon=1E-15`). -/
def PMF.defaultEpsilon : ℚ := 1 / 10 ^ 15

/-- Claim C5: for a non-empty `data` list and `epsilon ≥ 0`, `PMF.__init__`
raises `ValueError` if and only if some probability is negative or the
probability sum differs from 1 by more than `epsilon`; when no error is
raised the constructed PMF stores the pairs unchanged and in order (so in
particular an entry with probability exactly 0 is accepted). -/
theorem PMF.init_spec {α : Type} (data : List (ℚ × α)) (epsilon : ℚ)
    (hne : data ≠ []) (heps : 0 ≤ epsilon) :
    ((∃ e, PMF.init data epsilon = .error e) ↔
      ((∃ pv ∈ data, pv.1 < 0) ∨ |(data.map Prod.fst).sum - 1| > epsilon))
    ∧ (∀ p : PMF α, PMF.init data epsilon = .ok p → p.data = data) := by
  match data with
  | [] => exact absurd rfl hne
  | x :: xs =>
    clear hne heps
    unfold PMF.init
    split_ifs with h1 h2
    · refine ⟨?_, by intro p hp; cases hp⟩
      simp only [List.any_eq_true, List.mem_map, decide_eq_true_eq] at h1
      obtain ⟨q, ⟨pv, hpv, hq⟩, hneg⟩ := h1
      exact iff_of_true ⟨_, rfl⟩ (Or.inl ⟨pv, hpv, hq ▸ hneg⟩)
    · refine ⟨?_, by intro p hp; cases hp⟩
      exact iff_of_true ⟨_, rfl⟩ (Or.inr h2)
    · constructor
      · constructor
        · rintro ⟨e, he⟩; cases he
        · rintro (⟨pv, hpv, hneg⟩ | hsum)
          · exact absurd (by
              simp only [List.any_eq_true, List.mem_map, decide_eq_true_eq]
              exact ⟨pv.1, ⟨pv, hpv, rfl⟩, hneg⟩) h1
          · exact absurd hsum h2
      · intro p hp
        injection hp with hp
        exact congrArg PMF.data hp.symm

/-- Witness for C5: a concrete two-entry PMF with probabilities 1/2, 1/2 and
tolerance 0 satisfies the hypotheses and the conclusion of `PMF.init_spec`. -/
theorem PMF.init_spec_witness :
    (([((1 : ℚ)/2, true), ((1 : ℚ)/2, false)] : List (ℚ × Bool)) ≠ []
      ∧ (0 : ℚ) ≤ 0)
    ∧ (((∃ e, PMF.init [((1 : ℚ)/2, true), ((1 : ℚ)/2, false)] 0 = .error e) ↔
        ((∃ pv ∈ [((1 : ℚ)/2, true), ((1 : ℚ)/2, false)], pv.1 < 0) ∨
          |(([((1 : ℚ)/2, true), ((1 : ℚ)/2, false)]).map Prod.fst).sum - 1|
            > 0))
      ∧ (∀ p : PMF Bool,
          PMF.init [((1 : ℚ)/2, true), ((1 : ℚ)/2, false)] 0 = .ok p →
            p.data = [((1 : ℚ)/2, true), ((1 : ℚ)/2, false)])) :=
  ⟨⟨by decide, le_refl 0⟩,
    PMF.init_spec [((1 : ℚ)/2, true), ((1 : ℚ)/2, false)] 0 (by decide)
      (le_refl 0)⟩

/-- Claim C9: constructing a PMF from an empty list of pairs always raises
(the unpacking `probs, values = zip(*data)` fails before any validation), and
consequently every successfully constructed PMF holds at least one pair. -/
theorem PMF.init_empty {α : Type} (epsilon : ℚ) :
    PMF.init ([] : List (ℚ × α)) epsilon
        = .error "need more than 0 values to unpack"
    ∧ (∀ (data : List (ℚ × α)) (p : PMF α),
        PMF.init data epsilon = .ok p → p.data ≠ []) := by
  refine ⟨rfl, ?_⟩
  intro data p hp
  match data with
  | [] => cases hp
  | x :: xs =>
    unfold PMF.init at hp
    split_ifs at hp
    injection hp with hp
    rw [congrArg PMF.data hp.symm]
    exact List.cons_ne_nil x xs

/-! ## Geodetic primitives

The geodetic module `nhlib.geo.geodetic` itself is not among the sources
(only its test file is), so the `azimuth` primitive is modelled from the
spec.  All angular inputs and outputs are in degrees, trigonometric work is
in radians. -/

/-- `math.radians`: degrees to radians. -/
noncomputable def radians (d : ℝ) : ℝ := d * (Real.pi / 180)

/-- `math.degrees`: radians to degrees. -/
noncomputable def degrees (r : ℝ) : ℝ := r * 180 / Real.pi

/-- Two-argument arctangent with the usual quadrant conventions, range
(-pi, pi]; the building block of the initial-bearing formula. -/
noncomputable def atan2 (y x : ℝ) : ℝ :=
  if 0 < x then Real.arctan (y / x)
  else if x < 0 then
    if 0 ≤ y then Real.arctan (y / x) + Real.pi
    else Real.arctan (y / x) - Real.pi
  else
    if 0 < y then Real.pi / 2
    else if y < 0 then -(Real.pi / 2)
    else 0

/-- Modelled from the spec: `azimuth(lon1,lat1,lon2,lat2)` of the geodetic
module (absent from the sources; only its tests are present) returns the
initial great-circle bearing from point 1 to point 2 in degrees, reduced to
[0, 360).  This is the standard spherical initial-bearing formula
`atan2(sin Δλ · cos φ₂, cos φ₁ · sin φ₂ − sin φ₁ · cos φ₂ · cos Δλ)`,
before reduction to [0, 360). -/
noncomputable def azimuthRaw (lon1 lat1 lon2 lat2 : ℝ) : ℝ :=
  degrees (atan2
    (Real.sin (radians (lon2 - lon1)) * Real.cos (radians lat2))
    (Real.cos (radians lat1) * Real.sin (radians lat2)
      - Real.sin (radians lat1) * Real.cos (radians lat2)
        * Real.cos (radians (lon2 - lon1))))

/-- Modelled from the spec: `azimuth` reduces the raw bearing to [0, 360)
by adding 360 to a negative result. -/
noncomputable def azimuth (lon1 lat1 lon2 lat2 : ℝ) : ℝ :=
  if azimuthRaw lon1 lat1 lon2 lat2 < 0 then azimuthRaw lon1 lat1 lon2 lat2 + 360
  else azimuthRaw lon1 lat1 lon2 lat2

theorem sin_radians_one_pos : 0 < Real.sin (radians 1) := by
  have hpi := Real.pi_pos
  have h1 : radians 1 = Real.pi / 180 := by unfold radians; ring
  rw [h1]
  apply Real.sin_pos_of_pos_of_lt_pi
  · positivity
  · nlinarith

theorem atan2_zero_pos {x : ℝ} (hx : 0 < x) : atan2 0 x = 0 := by
  unfold atan2
  rw [if_pos hx, zero_div, Real.arctan_zero]

theorem atan2_pos_zero {y : ℝ} (hy : 0 < y) : atan2 y 0 = Real.pi / 2 := by
  unfold atan2
  rw [if_neg (lt_irrefl 0), if_neg (lt_irrefl 0), if_pos hy]

theorem atan2_zero_neg {x : ℝ} (hx : x < 0) : atan2 0 x = Real.pi := by
  unfold atan2
  rw [if_neg (by linarith), if_pos hx, if_pos le_rfl, zero_div,
    Real.arctan_zero, zero_add]

theorem atan2_neg_zero {y : ℝ} (hy : y < 0) : atan2 y 0 = -(Real.pi / 2) := by
  unfold atan2
  rw [if_neg (lt_irrefl 0), if_neg (lt_irrefl 0), if_neg (by linarith),
    if_pos hy]

/-- The range of `atan2` is (-pi, pi]. -/
theorem atan2_mem_Ioc (y x : ℝ) :
    -Real.pi < atan2 y x ∧ atan2 y x ≤ Real.pi := by
  have hpi := Real.pi_pos
  have ha1 := Real.arctan_lt_pi_div_two (y / x)
  have ha2 := Real.neg_pi_div_two_lt_arctan (y / x)
  unfold atan2
  split_ifs with hx hx2 hy hy1 hy2
  · constructor <;> linarith
  · have hle : y / x ≤ 0 := div_nonpos_iff.mpr (Or.inl ⟨hy, hx2.le⟩)
    have h0 : Real.arctan (y / x) ≤ 0 := by
      have := Real.arctan_strictMono.monotone hle
      rwa [Real.arctan_zero] at this
    constructor <;> linarith
  · have hpos : 0 < y / x := div_pos_iff.mpr (Or.inr ⟨not_le.mp hy, hx2⟩)
    have h0 : 0 < Real.arctan (y / x) := by
      have := Real.arctan_strictMono hpos
      rwa [Real.arctan_zero] at this
    constructor <;> linarith
  · constructor <;> linarith
  · constructor <;> linarith
  · constructor <;> linarith

/-- The raw bearing lies in (-180, 180]. -/
theorem azimuthRaw_mem_Ioc (lon1 lat1 lon2 lat2 : ℝ) :
    -180 < azimuthRaw lon1 lat1 lon2 lat2
      ∧ azimuthRaw lon1 lat1 lon2 lat2 ≤ 180 := by
  have hpi := Real.pi_pos
  unfold azimuthRaw degrees
  obtain ⟨h1, h2⟩ := atan2_mem_Ioc
    (Real.sin (radians (lon2 - lon1)) * Real.cos (radians lat2))
    (Real.cos (radians lat1) * Real.sin (radians lat2)
      - Real.sin (radians lat1) * Real.cos (radians lat2)
        * Real.cos (radians (lon2 - lon1)))
  constructor
  · rw [neg_lt, ← neg_div, ← neg_mul]
    rw [div_lt_iff hpi]
    nlinarith
  · rw [div_le_iff hpi]
    nlinarith

theorem azimuthRaw_north : azimuthRaw 0 0 0 1 = 0 := by
  have h00 : radians (0 - 0) = 0 := by unfold radians; ring
  have h0 : radians 0 = 0 := by unfold radians; ring
  have hy : Real.sin (radians ((0 : ℝ) - 0)) * Real.cos (radians 1) = 0 := by
    rw [h00, Real.sin_zero, zero_mul]
  have hx : Real.cos (radians 0) * Real.sin (radians 1)
      - Real.sin (radians 0) * Real.cos (radians 1)
        * Real.cos (radians ((0 : ℝ) - 0))
      = Real.sin (radians 1) := by
    rw [h0, Real.cos_zero, Real.sin_zero, one_mul, zero_mul, zero_mul,
      sub_zero]
  unfold azimuthRaw
  rw [hy, hx, atan2_zero_pos sin_radians_one_pos]
  unfold degrees
  rw [zero_mul, zero_div]

theorem azimuthRaw_east : azimuthRaw 0 0 1 0 = 90 := by
  have hpi := Real.pi_pos
  have h0 : radians 0 = 0 := by unfold radians; ring
  have hy : Real.sin (radians ((1 : ℝ) - 0)) * Real.cos (radians 0)
      = Real.sin (radians 1) := by
    rw [h0, Real.cos_zero, mul_one, sub_zero]
  have hx : Real.cos (radians 0) * Real.sin (radians 0)
      - Real.sin (radians 0) * Real.cos (radians 0)
        * Real.cos (radians ((1 : ℝ) - 0))
      = 0 := by
    rw [h0, Real.sin_zero]; ring
  unfold azimuthRaw
  rw [hy, hx, atan2_pos_zero sin_radians_one_pos]
  unfold degrees
  field_simp
  ring

theorem azimuthRaw_south : azimuthRaw 0 2 0 1 = 180 := by
  have hpi := Real.pi_pos
  have h00 : radians (0 - 0) = 0 := by unfold radians; ring
  have hy : Real.sin (radians ((0 : ℝ) - 0)) * Real.cos (radians 1) = 0 := by
    rw [h00, Real.sin_zero, zero_mul]
  have hx : Real.cos (radians 2) * Real.sin (radians 1)
      - Real.sin (radians 2) * Real.cos (radians 1)
        * Real.cos (radians ((0 : ℝ) - 0))
      = Real.sin (radians 1 - radians 2) := by
    rw [h00, Real.cos_zero, Real.sin_sub]; ring
  have hneg : Real.sin (radians 1 - radians 2) < 0 := by
    have h12 : radians 1 - radians 2 = -radians 1 := by unfold radians; ring
    rw [h12, Real.sin_neg]
    linarith [sin_radians_one_pos]
  unfold azimuthRaw
  rw [hy, hx, atan2_zero_neg hneg]
  unfold degrees
  field_simp

theorem azimuthRaw_west : azimuthRaw 1 0 0 0 = -90 := by
  have hpi := Real.pi_pos
  have h0 : radians 0 = 0 := by unfold radians; ring
  have h01 : radians ((0 : ℝ) - 1) = -radians 1 := by unfold radians; ring
  have hy : Real.sin (radians ((0 : ℝ) - 1)) * Real.cos (radians 0)
      = -Real.sin (radians 1) := by
    rw [h01, Real.sin_neg, h0, Real.cos_zero, mul_one]
  have hx : Real.cos (radians 0) * Real.sin (radians 0)
      - Real.sin (radians 0) * Real.cos (radians 0)
        * Real.cos (radians ((0 : ℝ) - 1))
      = 0 := by
    rw [h0, Real.sin_zero]; ring
  unfold azimuthRaw
  rw [hy, hx, atan2_neg_zero (by linarith [sin_radians_one_pos])]
  unfold degrees
  field_simp
  ring

/-- Claim C7: the azimuth function returns the initial bearing in degrees in
[0, 360); it is exactly 0 for a point due north, 90 for due east, 180 for due
south and 270 for due west (the degenerate identical-points case is a total
function application in this model, so it cannot raise). -/
theorem azimuth_spec :
    (∀ lon1 lat1 lon2 lat2 : ℝ,
      0 ≤ azimuth lon1 lat1 lon2 lat2 ∧ azimuth lon1 lat1 lon2 lat2 < 360)
    ∧ azimuth 0 0 0 1 = 0
    ∧ azimuth 0 0 1 0 = 90
    ∧ azimuth 0 2 0 1 = 180
    ∧ azimuth 1 0 0 0 = 270 := by
  refine ⟨?_, ?_, ?_, ?_, ?_⟩
  · intro lon1 lat1 lon2 lat2
    obtain ⟨h1, h2⟩ := azimuthRaw_mem_Ioc lon1 lat1 lon2 lat2
    unfold azimuth
    split_ifs with h
    · constructor <;> linarith
    · constructor <;> linarith
  · unfold azimuth
    rw [azimuthRaw_north]
    norm_num
  · unfold azimuth
    rw [azimuthRaw_east]
    norm_num
  · unfold azimuth
    rw [azimuthRaw_south]
    norm_num
  · unfold azimuth
    rw [azimuthRaw_west]
    norm_num

/-! ## `nhe.source.point.PointSource` and its collaborators

The `Point`, `NodalPlane`, `PlanarSurface` and `ProbabilisticRupture`
classes live in modules that are not among the sources; they are modelled
from the spec data model (§3).  The horizontal part of the forward geodetic
projection used by `Point.point_at` has no closed formula in either the
sources or the spec, so it is kept abstract: every theorem below holds for
an arbitrary horizontal projection function `hproj`. -/

/-- Modelled from the spec: `nhe.geo.Point` — (longitude, latitude,
depth in km). -/
structure Point where
  longitude : ℝ
  latitude : ℝ
  depth : ℝ

/-- Modelled from the spec: `nhe.common.nodalplane.NodalPlane` —
(strike, dip, rake) in degrees. -/
structure NodalPlane where
  strike : ℝ
  dip : ℝ
  rake : ℝ

/-- Modelled from the spec: `nhe.geo.surface.planar.PlanarSurface` — four
ordered corner points; the constructor argument order is
(top-left, top-right, bottom-right, bottom-left). -/
structure PlanarSurface where
  top_left : Point
  top_right : Point
  bottom_right : Point
  bottom_left : Point

/-- Modelled from the spec: `Point.point_at(horizontal_distance,
vertical_increment, azimuth)` — a 3-D projection combining an azimuthal
horizontal move (the abstract `hproj`, taking longitude, latitude, azimuth
and horizontal distance) with a direct vertical depth change. -/
def Point.point_at (hproj : ℝ → ℝ → ℝ → ℝ → ℝ × ℝ) (p : Point)
    (horizontal_distance vertical_increment azi : ℝ) : Point :=
  ⟨(hproj p.longitude p.latitude azi horizontal_distance).1,
   (hproj p.longitude p.latitude azi horizontal_distance).2,
   p.depth + vertical_increment⟩

/-- Modelled from the spec: `nhe.source.base.ProbabilisticRupture` — the
record yielded by rupture enumeration, with the constructor argument order
of the call site in `_iter_ruptures_at_location`.  The temporal occurrence
model is opaque to this core and is represented by a bare index. -/
structure ProbabilisticRupture where
  mag : ℝ
  nodal_plane : NodalPlane
  tectonic_region_type : String
  hypocenter : Point
  surface : PlanarSurface
  occurrence_rate : ℝ
  temporal_occurrence_model : ℕ

/-- `nhe.source.point.PointSource`: the aggregate of the constructor
parameters (the base-class fields `source_id`, `name`,
`tectonic_region_type`, `mfd` folded in, as `SeismicSource.__init__` only
stores them).  The external MFD collaborator is represented by the list of
(magnitude, annual rate) pairs its `get_annual_occurrence_rates` yields, and
the external magnitude-scaling relationship by its `get_median_area`
function. -/
structure PointSource where
  source_id : String
  name : String
  tectonic_region_type : String
  mfd : List (ℝ × ℝ)
  location : Point
  nodal_plane_distribution : List (ℝ × NodalPlane)
  hypocenter_distribution : List (ℝ × ℝ)
  upper_seismogenic_depth : ℝ
  lower_seismogenic_depth : ℝ
  magnitude_scaling_relationship : ℝ → ℝ → ℝ
  rupture_aspect_ratio : ℝ

/-- `PointSource.__init__`: the four validation checks, in source order,
each raising `SourceError`; on success every field is assigned. -/
noncomputable def PointSource.init (source_id name tectonic_region_type : String)
    (mfd : List (ℝ × ℝ)) (location : Point)
    (nodal_plane_distribution : List (ℝ × NodalPlane))
    (hypocenter_distribution : List (ℝ × ℝ))
    (upper_seismogenic_depth lower_seismogenic_depth : ℝ)
    (magnitude_scaling_relationship : ℝ → ℝ → ℝ)
    (rupture_aspect_ratio : ℝ) : Except String PointSource :=
  if upper_seismogenic_depth < 0 then
    .error "upper seismogenic depth must be non-negative"
  else if ¬ lower_seismogenic_depth > upper_seismogenic_depth then
    .error "lower seismogenic depth must be below upper seismogenic depth"
  else if ¬ ∀ pd ∈ hypocenter_distribution,
      upper_seismogenic_depth ≤ pd.2 ∧ pd.2 ≤ lower_seismogenic_depth then
    .error "depths of all hypocenters must be in between lower and upper seismogenic depths"
  else if ¬ rupture_aspect_ratio > 0 then
    .error "rupture aspect ratio must be positive"
  else
    .ok ⟨source_id, name, tectonic_region_type, mfd, location,
      nodal_plane_distribution, hypocenter_distribution,
      upper_seismogenic_depth, lower_seismogenic_depth,
      magnitude_scaling_relationship, rupture_aspect_ratio⟩

/-- `PointSource._get_rupture_dimensions(mag, nodal_plane)`: median area
from the scaling relationship, decomposition into length and width by the
aspect ratio, and clamping of the width to what fits in the seismogenic
layer once inclined by the dip, preserving the area. -/
noncomputable def _get_rupture_dimensions (src : PointSource) (mag : ℝ)
    (nodal_plane : NodalPlane) : ℝ × ℝ :=
  let area := src.magnitude_scaling_relationship mag nodal_plane.rake
  let rup_length := Real.sqrt (area * src.rupture_aspect_ratio)
  let rup_width := area / rup_length
  let seismogenic_layer_width :=
    src.lower_seismogenic_depth - src.upper_seismogenic_depth
  let max_width := seismogenic_layer_width / Real.sin (radians nodal_plane.dip)
  if rup_width > max_width then (area / max_width, max_width)
  else (rup_length, rup_width)

/-- For dip in (0, 90], the sine of the dip in radians is positive. -/
theorem sin_radians_dip_pos {dip : ℝ} (h0 : 0 < dip) (h90 : dip ≤ 90) :
    0 < Real.sin (radians dip) := by
  have hpi := Real.pi_pos
  unfold radians
  apply Real.sin_pos_of_pos_of_lt_pi
  · positivity
  · nlinarith

/-- Claim C2: for a positive median area and positive aspect ratio (and a
well-formed source: dip in (0, 90], upper < lower), `_get_rupture_dimensions`
returns `(sqrt(A·aspect), A/sqrt(A·aspect))` when that width does not exceed
`max_width = (lower − upper)/sin(dip)`, and `(A/max_width, max_width)`
otherwise; in both branches the product of the returned length and width is
the original area. -/
theorem get_rupture_dimensions_spec (src : PointSource) (mag : ℝ)
    (nodal_plane : NodalPlane)
    (hA : 0 < src.magnitude_scaling_relationship mag nodal_plane.rake)
    (har : 0 < src.rupture_aspect_ratio)
    (hdip0 : 0 < nodal_plane.dip) (hdip90 : nodal_plane.dip ≤ 90)
    (hul : src.upper_seismogenic_depth < src.lower_seismogenic_depth) :
    (let area := src.magnitude_scaling_relationship mag nodal_plane.rake
     let rup_length := Real.sqrt (area * src.rupture_aspect_ratio)
     let max_width := (src.lower_seismogenic_depth
        - src.upper_seismogenic_depth) / Real.sin (radians nodal_plane.dip)
     (¬ area / rup_length > max_width →
        _get_rupture_dimensions src mag nodal_plane
          = (rup_length, area / rup_length))
     ∧ (area / rup_length > max_width →
        _get_rupture_dimensions src mag nodal_plane
          = (area / max_width, max_width)))
    ∧ (_get_rupture_dimensions src mag nodal_plane).1
        * (_get_rupture_dimensions src mag nodal_plane).2
      = src.magnitude_scaling_relationship mag nodal_plane.rake := by
  have hsin := sin_radians_dip_pos hdip0 hdip90
  have hlen : 0 < Real.sqrt (src.magnitude_scaling_relationship mag
      nodal_plane.rake * src.rupture_aspect_ratio) :=
    Real.sqrt_pos.mpr (mul_pos hA har)
  have hmaxw : 0 < (src.lower_seismogenic_depth
      - src.upper_seismogenic_depth) / Real.sin (radians nodal_plane.dip) :=
    div_pos (by linarith) hsin
  unfold _get_rupture_dimensions
  dsimp only
  split_ifs with h
  · refine ⟨⟨fun hc => absurd h hc, fun _ => rfl⟩, ?_⟩
    exact div_mul_cancel₀ _ hmaxw.ne'
  · refine ⟨⟨fun _ => rfl, fun hc => absurd hc h⟩, ?_⟩
    exact mul_div_cancel₀ _ hlen.ne'

/-- Witness for C2: a concrete source with area 1, aspect ratio 1, dip 90,
seismogenic layer [0, 10] satisfies the hypotheses of
`get_rupture_dimensions_spec`, and hence its conclusion. -/
theorem get_rupture_dimensions_spec_witness :
    (let src : PointSource :=
      ⟨"s", "n", "t", [], ⟨0, 0, 0⟩, [], [], 0, 10, fun _ _ => 1, 1⟩
     let nodal_plane : NodalPlane := ⟨0, 90, 0⟩
     (0 : ℝ) < src.magnitude_scaling_relationship 5 nodal_plane.rake
     ∧ (0 : ℝ) < src.rupture_aspect_ratio
     ∧ (0 : ℝ) < nodal_plane.dip ∧ nodal_plane.dip ≤ 90
     ∧ src.upper_seismogenic_depth < src.lower_seismogenic_depth
     ∧ ((let area := src.magnitude_scaling_relationship 5 nodal_plane.rake
         let rup_length := Real.sqrt (area * src.rupture_aspect_ratio)
         let max_width := (src.lower_seismogenic_depth
            - src.upper_seismogenic_depth)
              / Real.sin (radians nodal_plane.dip)
         (¬ area / rup_length > max_width →
            _get_rupture_dimensions src 5 nodal_plane
              = (rup_length, area / rup_length))
         ∧ (area / rup_length > max_width →
            _get_rupture_dimensions src 5 nodal_plane
              = (area / max_width, max_width)))
        ∧ (_get_rupture_dimensions src 5 nodal_plane).1
            * (_get_rupture_dimensions src 5 nodal_plane).2
          = src.magnitude_scaling_relationship 5 nodal_plane.rake)) := by
  refine ⟨by norm_num, by norm_num, by norm_num, by norm_num, by norm_num, ?_⟩
  exact get_rupture_dimensions_spec _ 5 _ (by norm_num) (by norm_num)
    (by norm_num) (by norm_num) (by norm_num)

/-- The float modulo of Python with positive modulus 360, as used for the
azimuth arithmetic `(azimuth + 90) % 360`. -/
noncomputable def fmod360 (x : ℝ) : ℝ := x - 360 * (⌊x / 360⌋ : ℝ)

theorem fmod360_add_left (a b : ℝ) :
    fmod360 (fmod360 a + b) = fmod360 (a + b) := by
  unfold fmod360
  have h : (a - 360 * (⌊a / 360⌋ : ℝ) + b) / 360
      = (a + b) / 360 - (⌊a / 360⌋ : ℝ) := by ring
  rw [h, Int.floor_sub_int]
  push_cast
  ring

/-- `azimuth_down = (azimuth_right + 90) % 360` of `_get_rupture_surface`,
with `azimuth_right` the strike of the nodal plane. -/
noncomputable def azimuth_down (strike : ℝ) : ℝ := fmod360 (strike + 90)

/-- `azimuth_left = (azimuth_down + 90) % 360` of `_get_rupture_surface`. -/
noncomputable def azimuth_left (strike : ℝ) : ℝ :=
  fmod360 (azimuth_down strike + 90)

/-- `azimuth_up = (azimuth_left + 90) % 360` of `_get_rupture_surface`. -/
noncomputable def azimuth_up (strike : ℝ) : ℝ :=
  fmod360 (azimuth_left strike + 90)

/-- `rup_proj_height` of `_get_rupture_surface`: the rupture width projected
on the vertical plane, `rup_width * sin(rdip)`. -/
noncomputable def rup_proj_height (src : PointSource) (mag : ℝ)
    (nodal_plane : NodalPlane) : ℝ :=
  (_get_rupture_dimensions src mag nodal_plane).2
    * Real.sin (radians nodal_plane.dip)

/-- `rup_proj_width` of `_get_rupture_surface`: the rupture width projected
on the horizontal plane, `rup_width * cos(rdip)`. -/
noncomputable def rup_proj_width (src : PointSource) (mag : ℝ)
    (nodal_plane : NodalPlane) : ℝ :=
  (_get_rupture_dimensions src mag nodal_plane).2
    * Real.cos (radians nodal_plane.dip)

/-- The final value of the `vshift` variable of `_get_rupture_surface`:
the tentative shift keyed on the top edge, and, when that is negative, the
bottom-edge-based shift forced to 0 when positive. -/
noncomputable def vshift (src : PointSource) (mag : ℝ)
    (nodal_plane : NodalPlane) (hypocenter : Point) : ℝ :=
  let hheight := rup_proj_height src mag nodal_plane / 2
  let v1 := src.upper_seismogenic_depth - hypocenter.depth + hheight
  if v1 < 0 then
    let v2 := src.lower_seismogenic_depth - hypocenter.depth - hheight
    if v2 > 0 then 0 else v2
  else v1

/-- The `rupture_center` variable of `_get_rupture_surface`: the hypocenter,
moved along the dip by `point_at(|vshift/tan(rdip)|, vshift, up or down)`
when the shift is nonzero. -/
noncomputable def rupture_center (hproj : ℝ → ℝ → ℝ → ℝ → ℝ × ℝ)
    (src : PointSource) (mag : ℝ) (nodal_plane : NodalPlane)
    (hypocenter : Point) : Point :=
  if vshift src mag nodal_plane hypocenter ≠ 0 then
    Point.point_at hproj hypocenter
      (|vshift src mag nodal_plane hypocenter
        / Real.tan (radians nodal_plane.dip)|)
      (vshift src mag nodal_plane hypocenter)
      (if vshift src mag nodal_plane hypocenter < 0 then
        azimuth_up nodal_plane.strike
      else azimuth_down nodal_plane.strike)
  else hypocenter

/-- `PointSource._get_rupture_surface(mag, nodal_plane, hypocenter)` minus
its leading assertion (modelled separately below): the four corner points of
the rupture rectangle, stepped out from the (possibly shifted) rupture
center, returned as `PlanarSurface(left_top, right_top, right_bottom,
left_bottom)`. -/
noncomputable def _get_rupture_surface (hproj : ℝ → ℝ → ℝ → ℝ → ℝ × ℝ)
    (src : PointSource) (mag : ℝ) (nodal_plane : NodalPlane)
    (hypocenter : Point) : PlanarSurface :=
  let rup_length := (_get_rupture_dimensions src mag nodal_plane).1
  let center := rupture_center hproj src mag nodal_plane hypocenter
  let right_center := center.point_at hproj (rup_length / 2) 0
    nodal_plane.strike
  let right_bottom := right_center.point_at hproj
    (rup_proj_width src mag nodal_plane / 2)
    (rup_proj_height src mag nodal_plane / 2)
    (azimuth_down nodal_plane.strike)
  let right_top := right_bottom.point_at hproj
    (rup_proj_width src mag nodal_plane)
    (-(rup_proj_height src mag nodal_plane))
    (azimuth_up nodal_plane.strike)
  let left_top := right_top.point_at hproj rup_length 0
    (azimuth_left nodal_plane.strike)
  let left_bottom := right_bottom.point_at hproj rup_length 0
    (azimuth_left nodal_plane.strike)
  ⟨left_top, right_top, right_bottom, left_bottom⟩

/-- The assertion guarding `_get_rupture_surface`: the hypocenter depth must
lie within the seismogenic bounds; on failure no surface is produced. -/
noncomputable def _get_rupture_surface_checked
    (hproj : ℝ → ℝ → ℝ → ℝ → ℝ × ℝ) (src : PointSource) (mag : ℝ)
    (nodal_plane : NodalPlane) (hypocenter : Point) : Option PlanarSurface :=
  if src.upper_seismogenic_depth ≤ hypocenter.depth
      ∧ src.lower_seismogenic_depth ≥ hypocenter.depth then
    some (_get_rupture_surface hproj src mag nodal_plane hypocenter)
  else none

/-- The rupture width returned by `_get_rupture_dimensions` never exceeds
the width that fits in the seismogenic layer once inclined by the dip. -/
theorem rupture_width_le_max_width (src : PointSource) (mag : ℝ)
    (nodal_plane : NodalPlane) :
    (_get_rupture_dimensions src mag nodal_plane).2
      ≤ (src.lower_seismogenic_depth - src.upper_seismogenic_depth)
        / Real.sin (radians nodal_plane.dip) := by
  unfold _get_rupture_dimensions
  dsimp only
  split_ifs with h
  · exact le_refl _
  · exact not_lt.mp h

/-- Claim C3: under the precondition of the assertion
`upper ≤ hypocenter.depth ≤ lower` (and a well-formed dip), the two-branch
vertical shift places the rupture center at depth
`hypocenter.depth + vshift`, with the top edge of the rupture no shallower than
the upper seismogenic depth and its bottom edge no deeper than the lower
one, where the half-height is half the clamped width times sin(dip). -/
theorem rupture_center_fits_in_layer (hproj : ℝ → ℝ → ℝ → ℝ → ℝ × ℝ)
    (src : PointSource) (mag : ℝ) (nodal_plane : NodalPlane)
    (hypocenter : Point)
    (hdip0 : 0 < nodal_plane.dip) (hdip90 : nodal_plane.dip ≤ 90)
    (hu : src.upper_seismogenic_depth ≤ hypocenter.depth)
    (hl : hypocenter.depth ≤ src.lower_seismogenic_depth) :
    (rupture_center hproj src mag nodal_plane hypocenter).depth
        = hypocenter.depth + vshift src mag nodal_plane hypocenter
    ∧ src.upper_seismogenic_depth
        ≤ (rupture_center hproj src mag nodal_plane hypocenter).depth
          - rup_proj_height src mag nodal_plane / 2
    ∧ (rupture_center hproj src mag nodal_plane hypocenter).depth
          + rup_proj_height src mag nodal_plane / 2
        ≤ src.lower_seismogenic_depth := by
  have hsin := sin_radians_dip_pos hdip0 hdip90
  have hkey : rup_proj_height src mag nodal_plane
      ≤ src.lower_seismogenic_depth - src.upper_seismogenic_depth := by
    have hw := rupture_width_le_max_width src mag nodal_plane
    have := mul_le_mul_of_nonneg_right hw hsin.le
    rwa [div_mul_cancel₀ _ hsin.ne'] at this
  have hdepth : (rupture_center hproj src mag nodal_plane hypocenter).depth
      = hypocenter.depth + vshift src mag nodal_plane hypocenter := by
    unfold rupture_center
    split_ifs with h h2
    · unfold Point.point_at
      rfl
    · unfold Point.point_at
      rfl
    · rw [not_ne_iff.mp h, add_zero]
  refine ⟨hdepth, ?_, ?_⟩
  · rw [hdepth]
    unfold vshift
    dsimp only
    split_ifs with h1 h2 <;> linarith
  · rw [hdepth]
    unfold vshift
    dsimp only
    split_ifs with h1 h2 <;> linarith

/-- Witness for C3: a vertical-dip source with layer [0, 10], hypocenter at
depth 5 and unit area satisfies the hypotheses of
`rupture_center_fits_in_layer`, hence its conclusion. -/
theorem rupture_center_fits_in_layer_witness :
    (let src : PointSource :=
      ⟨"s", "n", "t", [], ⟨0, 0, 0⟩, [], [], 0, 10, fun _ _ => 1, 1⟩
     let nodal_plane : NodalPlane := ⟨0, 90, 0⟩
     let hypocenter : Point := ⟨0, 0, 5⟩
     let hproj : ℝ → ℝ → ℝ → ℝ → ℝ × ℝ := fun lon lat _ _ => (lon, lat)
     (0 : ℝ) < nodal_plane.dip ∧ nodal_plane.dip ≤ 90
     ∧ src.upper_seismogenic_depth ≤ hypocenter.depth
     ∧ hypocenter.depth ≤ src.lower_seismogenic_depth
     ∧ ((rupture_center hproj src 5 nodal_plane hypocenter).depth
          = hypocenter.depth + vshift src 5 nodal_plane hypocenter
        ∧ src.upper_seismogenic_depth
            ≤ (rupture_center hproj src 5 nodal_plane hypocenter).depth
              - rup_proj_height src 5 nodal_plane / 2
        ∧ (rupture_center hproj src 5 nodal_plane hypocenter).depth
              + rup_proj_height src 5 nodal_plane / 2
            ≤ src.lower_seismogenic_depth)) := by
  refine ⟨by norm_num, by norm_num, by norm_num, by norm_num, ?_⟩
  exact rupture_center_fits_in_layer _ _ 5 _ _ (by norm_num) (by norm_num)
    (by norm_num) (by norm_num)

/-- The corner construction exactly as the spec words it: right-center half
a length along the strike; right-bottom half the projected width and height
further along `(strike+90) % 360`; right-top a full projected width up-dip
(`(strike+270) % 360`) with negated vertical; left-top and left-bottom a
full length along the reverse strike (`(strike+180) % 360`); corners
returned in the order (left-top, right-top, right-bottom, left-bottom). -/
noncomputable def spec_corner_construction (hproj : ℝ → ℝ → ℝ → ℝ → ℝ × ℝ)
    (src : PointSource) (mag : ℝ) (nodal_plane : NodalPlane)
    (hypocenter : Point) : PlanarSurface :=
  let rup_length := (_get_rupture_dimensions src mag nodal_plane).1
  let center := rupture_center hproj src mag nodal_plane hypocenter
  let right_center := center.point_at hproj (rup_length / 2) 0
    nodal_plane.strike
  let right_bottom := right_center.point_at hproj
    (rup_proj_width src mag nodal_plane / 2)
    (rup_proj_height src mag nodal_plane / 2)
    (fmod360 (nodal_plane.strike + 90))
  let right_top := right_bottom.point_at hproj
    (rup_proj_width src mag nodal_plane)
    (-(rup_proj_height src mag nodal_plane))
    (fmod360 (nodal_plane.strike + 270))
  let left_top := right_top.point_at hproj rup_length 0
    (fmod360 (nodal_plane.strike + 180))
  let left_bottom := right_bottom.point_at hproj rup_length 0
    (fmod360 (nodal_plane.strike + 180))
  ⟨left_top, right_top, right_bottom, left_bottom⟩

/-- Claim C6: `_get_rupture_surface` performs exactly the corner-stepping
sequence described by the spec — for every horizontal projection, source and
input, the built surface coincides with the corner construction of the spec,
corners ordered (left-top, right-top, right-bottom, left-bottom). -/
theorem get_rupture_surface_corner_order (hproj : ℝ → ℝ → ℝ → ℝ → ℝ × ℝ)
    (src : PointSource) (mag : ℝ) (nodal_plane : NodalPlane)
    (hypocenter : Point) :
    _get_rupture_surface hproj src mag nodal_plane hypocenter
      = spec_corner_construction hproj src mag nodal_plane hypocenter := by
  have hleft : azimuth_left nodal_plane.strike
      = fmod360 (nodal_plane.strike + 180) := by
    unfold azimuth_left azimuth_down
    rw [fmod360_add_left]
    ring_nf
  have hup : azimuth_up nodal_plane.strike
      = fmod360 (nodal_plane.strike + 270) := by
    unfold azimuth_up
    rw [hleft, fmod360_add_left]
    ring_nf
  unfold _get_rupture_surface spec_corner_construction azimuth_down
  rw [hleft, hup]

/-! ## Rupture enumeration -/

/-- The body of the generator `_iter_ruptures_at_location`: the nested
iteration over MFD (magnitude, rate) pairs, nodal-plane PMF entries and
hypocenter-depth PMF entries, magnitude outermost and depth innermost,
yielding one `ProbabilisticRupture` per combination with
`occurrence_rate = mag_occ_rate * np_prob * hc_prob * rate_scaling_factor`
and the hypocenter at the longitude and latitude of the location with the
PMF-sampled depth. -/
noncomputable def _iter_ruptures_at_location (hproj : ℝ → ℝ → ℝ → ℝ → ℝ × ℝ)
    (src : PointSource) (temporal_occurrence_model : ℕ) (location : Point)
    (rate_scaling_factor : ℝ) : List ProbabilisticRupture :=
  src.mfd.flatMap fun mr =>
    src.nodal_plane_distribution.flatMap fun npe =>
      src.hypocenter_distribution.map fun hce =>
        ⟨mr.1, npe.2, src.tectonic_region_type,
          ⟨location.longitude, location.latitude, hce.2⟩,
          _get_rupture_surface hproj src mr.1 npe.2
            ⟨location.longitude, location.latitude, hce.2⟩,
          mr.2 * npe.1 * hce.1 * rate_scaling_factor,
          temporal_occurrence_model⟩

/-- A generator object: calling a Python generator function stores its
arguments and runs no body code; the body (including its leading assertion)
executes only when elements are requested. -/
structure RuptureGenerator where
  src : PointSource
  temporal_occurrence_model : ℕ
  location : Point
  rate_scaling_factor : ℝ

/-- `PointSource.iter_ruptures(temporal_occurrence_model)`: delegates to
`_iter_ruptures_at_location` with the location of the source itself and the default
`rate_scaling_factor = 1`. -/
def iter_ruptures (src : PointSource) (temporal_occurrence_model : ℕ) :
    RuptureGenerator :=
  ⟨src, temporal_occurrence_model, src.location, 1⟩

/-- Calling `_iter_ruptures_at_location(...)`: builds the generator; no
argument is validated at call time. -/
def iter_ruptures_at_location_call (src : PointSource)
    (temporal_occurrence_model : ℕ) (location : Point)
    (rate_scaling_factor : ℝ) : RuptureGenerator :=
  ⟨src, temporal_occurrence_model, location, rate_scaling_factor⟩

/-- Consuming the generator: the `assert 0 < rate_scaling_factor` at the top
of the body fires now, and on success the whole enumeration is produced. -/
noncomputable def RuptureGenerator.run (hproj : ℝ → ℝ → ℝ → ℝ → ℝ × ℝ)
    (g : RuptureGenerator) : Except String (List ProbabilisticRupture) :=
  if 0 < g.rate_scaling_factor then
    .ok (_iter_ruptures_at_location hproj g.src g.temporal_occurrence_model
      g.location g.rate_scaling_factor)
  else .error "AssertionError: 0 < rate_scaling_factor"

theorem flatMap_map_eq_product_map {α β δ : Type} (l1 : List α) (l2 : List β)
    (f : α → β → δ) :
    (l1.flatMap fun a => l2.map fun b => f a b)
      = (l1 ×ˢ l2).map fun x => f x.1 x.2 := by
  induction l1 with
  | nil => simp
  | cons a t ih =>
    rw [List.flatMap_cons, List.product_cons, List.map_append, ih,
      List.map_map]
    rfl

theorem flatMap_flatMap_map_eq_product_map {α β γ δ : Type} (l1 : List α)
    (l2 : List β) (l3 : List γ) (f : α → β → γ → δ) :
    (l1.flatMap fun a => l2.flatMap fun b => l3.map fun c => f a b c)
      = (l1 ×ˢ (l2 ×ˢ l3)).map fun x => f x.1 x.2.1 x.2.2 := by
  have h : ∀ a, (l2.flatMap fun b => l3.map fun c => f a b c)
      = (l2 ×ˢ l3).map fun p => f a p.1 p.2 := fun a =>
    flatMap_map_eq_product_map l2 l3 (f a)
  simp only [h]
  exact flatMap_map_eq_product_map l1 (l2 ×ˢ l3) fun a p => f a p.1 p.2

/-- Claim C1: `iter_ruptures` is `_iter_ruptures_at_location` at the
location of the source with scaling factor 1; for any positive scaling factor the
enumeration succeeds and yields exactly one rupture per element of the cross
product MFD × nodal-plane PMF × hypocenter PMF, in nested order (magnitude
outermost, depth innermost), with
`occurrence_rate = rate · np_prob · hc_prob · factor` and the hypocenter at
the longitude and latitude of the location with the sampled depth. -/
theorem iter_ruptures_cross_product (hproj : ℝ → ℝ → ℝ → ℝ → ℝ × ℝ)
    (src : PointSource) (temporal_occurrence_model : ℕ) (location : Point)
    (rate_scaling_factor : ℝ) (hf : 0 < rate_scaling_factor) :
    iter_ruptures src temporal_occurrence_model
        = iter_ruptures_at_location_call src temporal_occurrence_model
            src.location 1
    ∧ RuptureGenerator.run hproj (iter_ruptures_at_location_call src
            temporal_occurrence_model location rate_scaling_factor)
        = .ok (_iter_ruptures_at_location hproj src
            temporal_occurrence_model location rate_scaling_factor)
    ∧ _iter_ruptures_at_location hproj src temporal_occurrence_model
          location rate_scaling_factor
        = (src.mfd ×ˢ (src.nodal_plane_distribution
              ×ˢ src.hypocenter_distribution)).map
            (fun c => ⟨c.1.1, c.2.1.2, src.tectonic_region_type,
              ⟨location.longitude, location.latitude, c.2.2.2⟩,
              _get_rupture_surface hproj src c.1.1 c.2.1.2
                ⟨location.longitude, location.latitude, c.2.2.2⟩,
              c.1.2 * c.2.1.1 * c.2.2.1 * rate_scaling_factor,
              temporal_occurrence_model⟩)
    ∧ (_iter_ruptures_at_location hproj src temporal_occurrence_model
          location rate_scaling_factor).length
        = src.mfd.length * src.nodal_plane_distribution.length
            * src.hypocenter_distribution.length := by
  have h3 : _iter_ruptures_at_location hproj src temporal_occurrence_model
      location rate_scaling_factor
      = (src.mfd ×ˢ (src.nodal_plane_distribution
            ×ˢ src.hypocenter_distribution)).map
          (fun c => ⟨c.1.1, c.2.1.2, src.tectonic_region_type,
            ⟨location.longitude, location.latitude, c.2.2.2⟩,
            _get_rupture_surface hproj src c.1.1 c.2.1.2
              ⟨location.longitude, location.latitude, c.2.2.2⟩,
            c.1.2 * c.2.1.1 * c.2.2.1 * rate_scaling_factor,
            temporal_occurrence_model⟩) := by
    unfold _iter_ruptures_at_location
    exact flatMap_flatMap_map_eq_product_map _ _ _ _
  refine ⟨rfl, ?_, h3, ?_⟩
  · unfold RuptureGenerator.run iter_ruptures_at_location_call
    dsimp only
    rw [if_pos hf]
  · rw [h3, List.length_map, List.length_product, List.length_product,
      mul_assoc]

/-- A fixed concrete source used by the witnesses: a one-magnitude MFD, one
nodal plane, one hypocenter depth, layer [0, 10], unit area and aspect
ratio. -/
noncomputable def exampleSource : PointSource :=
  ⟨"s", "n", "trt", [(5, 1)], ⟨0, 0, 0⟩, [(1, ⟨0, 90, 0⟩)], [(1, 5)], 0, 10,
    fun _ _ => 1, 1⟩

/-- A fixed concrete horizontal projection used by the witnesses. -/
def exampleHproj : ℝ → ℝ → ℝ → ℝ → ℝ × ℝ := fun lon lat _ _ => (lon, lat)

/-- Witness for C1: the enumeration theorem applied to the concrete source
with scaling factor 1. -/
theorem iter_ruptures_cross_product_witness :
    (0 : ℝ) < 1
    ∧ (iter_ruptures exampleSource 0
          = iter_ruptures_at_location_call exampleSource 0
              exampleSource.location 1
      ∧ RuptureGenerator.run exampleHproj (iter_ruptures_at_location_call
              exampleSource 0 exampleSource.location 1)
          = .ok (_iter_ruptures_at_location exampleHproj exampleSource 0
              exampleSource.location 1)
      ∧ _iter_ruptures_at_location exampleHproj exampleSource 0
            exampleSource.location 1
          = (exampleSource.mfd ×ˢ (exampleSource.nodal_plane_distribution
                ×ˢ exampleSource.hypocenter_distribution)).map
              (fun c => ⟨c.1.1, c.2.1.2, exampleSource.tectonic_region_type,
                ⟨exampleSource.location.longitude,
                  exampleSource.location.latitude, c.2.2.2⟩,
                _get_rupture_surface exampleHproj exampleSource c.1.1 c.2.1.2
                  ⟨exampleSource.location.longitude,
                    exampleSource.location.latitude, c.2.2.2⟩,
                c.1.2 * c.2.1.1 * c.2.2.1 * 1, 0⟩)
      ∧ (_iter_ruptures_at_location exampleHproj exampleSource 0
            exampleSource.location 1).length
          = exampleSource.mfd.length
              * exampleSource.nodal_plane_distribution.length
              * exampleSource.hypocenter_distribution.length) :=
  ⟨by norm_num,
    iter_ruptures_cross_product exampleHproj exampleSource 0
      exampleSource.location 1 (by norm_num)⟩

/-- Claim C10: calling `_iter_ruptures_at_location` (or `iter_ruptures`)
only packages the arguments into a generator — no validation happens and the
call cannot raise, whatever the scaling factor; the `assert
0 < rate_scaling_factor` and the enumeration execute only when the generator
is consumed, a fresh consumption always producing the same full enumeration
from the first combination. -/
theorem iter_ruptures_call_is_lazy (hproj : ℝ → ℝ → ℝ → ℝ → ℝ × ℝ)
    (src : PointSource) (temporal_occurrence_model : ℕ) (location : Point)
    (rate_scaling_factor : ℝ) :
    iter_ruptures_at_location_call src temporal_occurrence_model location
        rate_scaling_factor
      = ⟨src, temporal_occurrence_model, location, rate_scaling_factor⟩
    ∧ (¬ 0 < rate_scaling_factor →
        RuptureGenerator.run hproj (iter_ruptures_at_location_call src
            temporal_occurrence_model location rate_scaling_factor)
          = .error "AssertionError: 0 < rate_scaling_factor")
    ∧ (0 < rate_scaling_factor →
        RuptureGenerator.run hproj (iter_ruptures_at_location_call src
            temporal_occurrence_model location rate_scaling_factor)
          = .ok (_iter_ruptures_at_location hproj src
              temporal_occurrence_model location rate_scaling_factor)) := by
  refine ⟨rfl, ?_, ?_⟩
  · intro h
    unfold RuptureGenerator.run iter_ruptures_at_location_call
    dsimp only
    rw [if_neg h]
  · intro h
    unfold RuptureGenerator.run iter_ruptures_at_location_call
    dsimp only
    rw [if_pos h]

/-- `PointSource.init` succeeds exactly when all four validations pass, and
then every field holds the corresponding constructor argument. -/
theorem PointSource.init_ok_iff (source_id name tectonic_region_type : String)
    (mfd : List (ℝ × ℝ)) (location : Point)
    (nodal_plane_distribution : List (ℝ × NodalPlane))
    (hypocenter_distribution : List (ℝ × ℝ))
    (upper_seismogenic_depth lower_seismogenic_depth : ℝ)
    (magnitude_scaling_relationship : ℝ → ℝ → ℝ)
    (rupture_aspect_ratio : ℝ) (src : PointSource) :
    PointSource.init source_id name tectonic_region_type mfd location
        nodal_plane_distribution hypocenter_distribution
        upper_seismogenic_depth lower_seismogenic_depth
        magnitude_scaling_relationship rupture_aspect_ratio = .ok src
      ↔ (¬ upper_seismogenic_depth < 0
        ∧ lower_seismogenic_depth > upper_seismogenic_depth
        ∧ (∀ pd ∈ hypocenter_distribution,
            upper_seismogenic_depth ≤ pd.2
              ∧ pd.2 ≤ lower_seismogenic_depth)
        ∧ rupture_aspect_ratio > 0
        ∧ src = ⟨source_id, name, tectonic_region_type, mfd, location,
            nodal_plane_distribution, hypocenter_distribution,
            upper_seismogenic_depth, lower_seismogenic_depth,
            magnitude_scaling_relationship, rupture_aspect_ratio⟩) := by
  unfold PointSource.init
  by_cases h1 : upper_seismogenic_depth < 0
  · rw [if_pos h1]
    exact iff_of_false (by rintro h; cases h) fun ⟨ha, _⟩ => ha h1
  rw [if_neg h1]
  by_cases h2 : lower_seismogenic_depth > upper_seismogenic_depth
  · rw [if_neg (not_not_intro h2)]
    by_cases h3 : ∀ pd ∈ hypocenter_distribution,
        upper_seismogenic_depth ≤ pd.2 ∧ pd.2 ≤ lower_seismogenic_depth
    · rw [if_neg (not_not_intro h3)]
      by_cases h4 : rupture_aspect_ratio > 0
      · rw [if_neg (not_not_intro h4)]
        constructor
        · intro h
          injection h with h
          exact ⟨h1, h2, h3, h4, h.symm⟩
        · rintro ⟨-, -, -, -, rfl⟩
          rfl
      · rw [if_pos h4]
        exact iff_of_false (by rintro h; cases h)
          fun ⟨_, _, _, hd, _⟩ => h4 hd
    · rw [if_pos h3]
      exact iff_of_false (by rintro h; cases h) fun ⟨_, _, hc, _⟩ => h3 hc
  · rw [if_pos h2]
    exact iff_of_false (by rintro h; cases h) fun ⟨_, hb, _⟩ => h2 hb

/-- Claim C4: `PointSource.__init__` raises `SourceError` if and only if the
upper seismogenic depth is negative, or the lower one is not strictly below
it, or some hypocenter-PMF depth lies outside [upper, lower], or the aspect
ratio is not positive; on success (the only alternative — construction is
atomic, no partial object exists) every field holds its argument. -/
theorem point_source_init_error_iff
    (source_id name tectonic_region_type : String)
    (mfd : List (ℝ × ℝ)) (location : Point)
    (nodal_plane_distribution : List (ℝ × NodalPlane))
    (hypocenter_distribution : List (ℝ × ℝ))
    (upper_seismogenic_depth lower_seismogenic_depth : ℝ)
    (magnitude_scaling_relationship : ℝ → ℝ → ℝ)
    (rupture_aspect_ratio : ℝ) :
    ((∃ e, PointSource.init source_id name tectonic_region_type mfd location
        nodal_plane_distribution hypocenter_distribution
        upper_seismogenic_depth lower_seismogenic_depth
        magnitude_scaling_relationship rupture_aspect_ratio = .error e)
      ↔ (upper_seismogenic_depth < 0
        ∨ ¬ lower_seismogenic_depth > upper_seismogenic_depth
        ∨ ¬ (∀ pd ∈ hypocenter_distribution,
            upper_seismogenic_depth ≤ pd.2
              ∧ pd.2 ≤ lower_seismogenic_depth)
        ∨ ¬ rupture_aspect_ratio > 0))
    ∧ ∀ src, PointSource.init source_id name tectonic_region_type mfd
        location nodal_plane_distribution hypocenter_distribution
        upper_seismogenic_depth lower_seismogenic_depth
        magnitude_scaling_relationship rupture_aspect_ratio = .ok src →
        src = ⟨source_id, name, tectonic_region_type, mfd, location,
          nodal_plane_distribution, hypocenter_distribution,
          upper_seismogenic_depth, lower_seismogenic_depth,
          magnitude_scaling_relationship, rupture_aspect_ratio⟩ := by
  constructor
  · unfold PointSource.init
    by_cases h1 : upper_seismogenic_depth < 0
    · rw [if_pos h1]
      exact iff_of_true ⟨_, rfl⟩ (Or.inl h1)
    rw [if_neg h1]
    by_cases h2 : lower_seismogenic_depth > upper_seismogenic_depth
    · rw [if_neg (not_not_intro h2)]
      by_cases h3 : ∀ pd ∈ hypocenter_distribution,
          upper_seismogenic_depth ≤ pd.2 ∧ pd.2 ≤ lower_seismogenic_depth
      · rw [if_neg (not_not_intro h3)]
        by_cases h4 : rupture_aspect_ratio > 0
        · rw [if_neg (not_not_intro h4)]
          refine iff_of_false ?_ ?_
          · rintro ⟨e, he⟩
            cases he
          · rintro (h | h | h | h)
            · exact h1 h
            · exact h h2
            · exact h h3
            · exact h h4
        · rw [if_pos h4]
          exact iff_of_true ⟨_, rfl⟩ (Or.inr (Or.inr (Or.inr h4)))
      · rw [if_pos h3]
        exact iff_of_true ⟨_, rfl⟩ (Or.inr (Or.inr (Or.inl h3)))
    · rw [if_pos h2]
      exact iff_of_true ⟨_, rfl⟩ (Or.inr (Or.inl h2))
  · intro src hok
    exact ((PointSource.init_ok_iff source_id name tectonic_region_type mfd
      location nodal_plane_distribution hypocenter_distribution
      upper_seismogenic_depth lower_seismogenic_depth
      magnitude_scaling_relationship rupture_aspect_ratio src).mp
        hok).2.2.2.2

/-- Claim C8: for a `PointSource` that construction accepted, every rupture
of the enumeration has its hypocenter depth within
[upper_seismogenic_depth, lower_seismogenic_depth], so the assertion at the
top of `_get_rupture_surface` holds and its failure branch is unreachable
from `iter_ruptures`. -/
theorem iter_ruptures_assert_never_fails (hproj : ℝ → ℝ → ℝ → ℝ → ℝ × ℝ)
    (source_id name tectonic_region_type : String)
    (mfd : List (ℝ × ℝ)) (location : Point)
    (nodal_plane_distribution : List (ℝ × NodalPlane))
    (hypocenter_distribution : List (ℝ × ℝ))
    (upper_seismogenic_depth lower_seismogenic_depth : ℝ)
    (magnitude_scaling_relationship : ℝ → ℝ → ℝ)
    (rupture_aspect_ratio : ℝ) (src : PointSource)
    (temporal_occurrence_model : ℕ)
    (hok : PointSource.init source_id name tectonic_region_type mfd location
        nodal_plane_distribution hypocenter_distribution
        upper_seismogenic_depth lower_seismogenic_depth
        magnitude_scaling_relationship rupture_aspect_ratio = .ok src) :
    ∀ r ∈ _iter_ruptures_at_location hproj src temporal_occurrence_model
        src.location 1,
      (src.upper_seismogenic_depth ≤ r.hypocenter.depth
        ∧ src.lower_seismogenic_depth ≥ r.hypocenter.depth)
      ∧ (_get_rupture_surface_checked hproj src r.mag r.nodal_plane
          r.hypocenter).isSome := by
  obtain ⟨-, -, hdepths, -, rfl⟩ := (PointSource.init_ok_iff source_id name
    tectonic_region_type mfd location nodal_plane_distribution
    hypocenter_distribution upper_seismogenic_depth lower_seismogenic_depth
    magnitude_scaling_relationship rupture_aspect_ratio src).mp hok
  intro r hr
  unfold _iter_ruptures_at_location at hr
  simp only [List.mem_flatMap, List.mem_map] at hr
  obtain ⟨mr, hmr, npe, hnpe, hce, hhce, rfl⟩ := hr
  have hd := hdepths hce hhce
  refine ⟨⟨hd.1, hd.2⟩, ?_⟩
  unfold _get_rupture_surface_checked
  rw [if_pos ⟨hd.1, hd.2⟩]
  rfl

/-- Witness for C8: the concrete source is accepted by construction, and the
conclusion of the theorem holds for it. -/
theorem iter_ruptures_assert_never_fails_witness :
    PointSource.init "s" "n" "trt" [((5 : ℝ), (1 : ℝ))] ⟨0, 0, 0⟩
        [((1 : ℝ), ⟨0, 90, 0⟩)] [((1 : ℝ), (5 : ℝ))] 0 10 (fun _ _ => 1) 1
      = .ok exampleSource
    ∧ ∀ r ∈ _iter_ruptures_at_location exampleHproj exampleSource 0
        exampleSource.location 1,
      (exampleSource.upper_seismogenic_depth ≤ r.hypocenter.depth
        ∧ exampleSource.lower_seismogenic_depth ≥ r.hypocenter.depth)
      ∧ (_get_rupture_surface_checked exampleHproj exampleSource r.mag
          r.nodal_plane r.hypocenter).isSome := by
  have hok : PointSource.init "s" "n" "trt" [((5 : ℝ), (1 : ℝ))] ⟨0, 0, 0⟩
      [((1 : ℝ), ⟨0, 90, 0⟩)] [((1 : ℝ), (5 : ℝ))] 0 10 (fun _ _ => 1) 1
      = .ok exampleSource := by
    apply (PointSource.init_ok_iff "s" "n" "trt" [((5 : ℝ), (1 : ℝ))]
      ⟨0, 0, 0⟩ [((1 : ℝ), ⟨0, 90, 0⟩)] [((1 : ℝ), (5 : ℝ))] 0 10
      (fun _ _ => 1) 1 exampleSource).mpr
    refine ⟨by norm_num, by norm_num, ?_, by norm_num, rfl⟩
    rintro pd hpd
    rw [List.mem_singleton] at hpd
    subst hpd
    norm_num
  exact ⟨hok, iter_ruptures_assert_never_fails exampleHproj "s" "n" "trt"
    [((5 : ℝ), (1 : ℝ))] ⟨0, 0, 0⟩ [((1 : ℝ), ⟨0, 90, 0⟩)]
    [((1 : ℝ), (5 : ℝ))] 0 10 (fun _ _ => 1) 1 exampleSource 0 hok⟩

end Hazardlib
